import Mathlib

/-!
Shallow embedding of the stalkermap scanner engine
(`src/stalkermap/src/scanner/{mod,formatter,actions,buffer_pool}.rs`).

Bytes are modelled as `List Nat` (each element < 256), the result map
(`HashMap<String, String>`) as an association list with replacing insert,
and the formatter trait as a structure over its output type.
-/

namespace Stalkermap

/-- Result map: `HashMap<String, String>` shared by the actions of one task. -/
abbrev ResultMap := List (String × String)

/-- `HashMap::insert`: replaces any existing entry for the key. -/
def insertRM (m : ResultMap) (k v : String) : ResultMap :=
  (m.filter (fun p => p.1 ≠ k)) ++ [(k, v)]

/-- `HashMap::get`: look a key up. -/
def findRM (m : ResultMap) (k : String) : Option String :=
  (m.find? (fun p => p.1 = k)).map (fun p => p.2)

/-- UTF-8 encoding of one scalar value (`str::as_bytes` / `String::into_bytes`). -/
def utf8EncodeChar (c : Char) : List Nat :=
  let n := c.toNat
  if n < 0x80 then [n]
  else if n < 0x800 then [0xC0 + n / 64, 0x80 + n % 64]
  else if n < 0x10000 then [0xE0 + n / 4096, 0x80 + (n / 64) % 64, 0x80 + n % 64]
  else [0xF0 + n / 0x40000, 0x80 + (n / 4096) % 64, 0x80 + (n / 64) % 64, 0x80 + n % 64]

/-- Byte content of a Rust string (`String::into_bytes`). -/
def strBytes (s : String) : List Nat :=
  (s.data.map utf8EncodeChar).flatten

/-- U+FFFD, the replacement character used by `String::from_utf8_lossy`. -/
def replacementChar : Char := Char.ofNat 0xFFFD

/-- Is the byte a UTF-8 continuation byte (`0x80 ..= 0xBF`)? -/
def isCont (b : Nat) : Bool := 0x80 ≤ b && b ≤ 0xBF

/-- Valid range of the second byte of a multi-byte sequence headed by `b`. -/
def validSecond (b b2 : Nat) : Bool :=
  if b = 0xE0 then 0xA0 ≤ b2 && b2 ≤ 0xBF
  else if b = 0xED then 0x80 ≤ b2 && b2 ≤ 0x9F
  else if b = 0xF0 then 0x90 ≤ b2 && b2 ≤ 0xBF
  else if b = 0xF4 then 0x80 ≤ b2 && b2 ≤ 0x8F
  else isCont b2

/-- Fuel-indexed worker of `String::from_utf8_lossy`: decodes UTF-8, replacing
invalid sequences (maximal-subpart substitution) with U+FFFD. -/
def utf8LossyGo : Nat → List Nat → List Char
  | 0, _ => []
  | _, [] => []
  | fuel + 1, b :: rest =>
    if b < 0x80 then Char.ofNat b :: utf8LossyGo fuel rest
    else if 0xC2 ≤ b && b ≤ 0xDF then
      match rest with
      | [] => [replacementChar]
      | b2 :: rest2 =>
        if isCont b2 then
          Char.ofNat ((b - 0xC0) * 64 + (b2 - 0x80)) :: utf8LossyGo fuel rest2
        else replacementChar :: utf8LossyGo fuel rest
    else if 0xE0 ≤ b && b ≤ 0xEF then
      match rest with
      | [] => [replacementChar]
      | b2 :: rest2 =>
        if validSecond b b2 then
          match rest2 with
          | [] => [replacementChar]
          | b3 :: rest3 =>
            if isCont b3 then
              Char.ofNat ((b - 0xE0) * 4096 + (b2 - 0x80) * 64 + (b3 - 0x80)) ::
                utf8LossyGo fuel rest3
            else replacementChar :: utf8LossyGo fuel rest2
        else replacementChar :: utf8LossyGo fuel rest
    else if 0xF0 ≤ b && b ≤ 0xF4 then
      match rest with
      | [] => [replacementChar]
      | b2 :: rest2 =>
        if validSecond b b2 then
          match rest2 with
          | [] => [replacementChar]
          | b3 :: rest3 =>
            if isCont b3 then
              match rest3 with
              | [] => [replacementChar]
              | b4 :: rest4 =>
                if isCont b4 then
                  Char.ofNat ((b - 0xF0) * 0x40000 + (b2 - 0x80) * 4096 +
                      (b3 - 0x80) * 64 + (b4 - 0x80)) :: utf8LossyGo fuel rest4
                else replacementChar :: utf8LossyGo fuel rest3
            else replacementChar :: utf8LossyGo fuel rest2
        else replacementChar :: utf8LossyGo fuel rest
    else replacementChar :: utf8LossyGo fuel rest

/-- `String::from_utf8_lossy(raw).into_owned()`. -/
def utf8Lossy (bytes : List Nat) : String :=
  String.mk (utf8LossyGo bytes.length bytes)

/-- `LogHeader` from `mod.rs`: the map of action results carried by a record. -/
structure LogHeader where
  actions_results : ResultMap
deriving DecidableEq, Repr

/-- `LogRecord` from `mod.rs`: structured scanner log entry. -/
structure LogRecord where
  header_response : LogHeader
  data : String
deriving DecidableEq, Repr

/-- The `LogFormatter` trait: an output type with `format` and `idle_output`. -/
structure LogFormatterM (O : Type) where
  format : ResultMap → List Nat → O
  idleOutput : O

/-- Default trait method `is_idle_signal`: equality with `idle_output()`. -/
def is_idle_signal {O : Type} [DecidableEq O] (F : LogFormatterM O) (o : O) : Bool :=
  o == F.idleOutput

/-- `RawFormatter`: output is the raw byte vector; idle value is `b"___IDLE___"`. -/
def rawFormatter : LogFormatterM (List Nat) where
  format := fun _ raw_data => raw_data
  idleOutput := strBytes "___IDLE___"

/-- `StructuredFormatter`: output is a `LogRecord` with the result map and the
lossy UTF-8 decoding of the bytes; idle value has an empty map and data `"idle"`. -/
def structuredFormatter : LogFormatterM LogRecord where
  format := fun actions_results raw_data =>
    { header_response := { actions_results := actions_results }
      data := utf8Lossy raw_data }
  idleOutput :=
    { header_response := { actions_results := [] }
      data := "idle" }

/-- JSON values as produced by `serde_json` for the types the scanner
serializes: strings and objects with ordered fields. -/
inductive Json where
  | str : String → Json
  | obj : List (String × Json) → Json

/-- One hexadecimal digit, lowercase (as in serde's control-character escapes). -/
def hexDigit (n : Nat) : String :=
  String.singleton (Char.ofNat (if n < 10 then 48 + n else 87 + n))

/-- serde_json's escaping of one character inside a JSON string literal. -/
def jsonEscapeChar (c : Char) : String :=
  if c = Char.ofNat 34 then "\\\""
  else if c = Char.ofNat 92 then "\\\\"
  else if c = Char.ofNat 10 then "\\n"
  else if c = Char.ofNat 13 then "\\r"
  else if c = Char.ofNat 9 then "\\t"
  else if c = Char.ofNat 8 then "\\b"
  else if c = Char.ofNat 12 then "\\f"
  else if c.toNat < 0x20 then "\\u00" ++ hexDigit (c.toNat / 16) ++ hexDigit (c.toNat % 16)
  else String.singleton c

/-- serde_json's escaping of a whole string. -/
def jsonEscape (s : String) : String :=
  String.join (s.data.map jsonEscapeChar)

mutual

/-- Compact rendering, as `serde_json::to_string` produces it. -/
def Json.render : Json → String
  | .str s => "\"" ++ jsonEscape s ++ "\""
  | .obj fs => "\x7b" ++ Json.renderFields fs ++ "\x7d"

/-- Comma-separated `"key":value` pairs of an object body. -/
def Json.renderFields : List (String × Json) → String
  | [] => ""
  | [(k, v)] => "\"" ++ jsonEscape k ++ "\":" ++ Json.render v
  | (k, v) :: f :: rest =>
      "\"" ++ jsonEscape k ++ "\":" ++ Json.render v ++ "," ++
        Json.renderFields (f :: rest)

end

/-- Field access in a JSON object (first binding wins, as in serde maps). -/
def Json.getField (j : Json) (k : String) : Option Json :=
  match j with
  | .str _ => none
  | .obj fs => (fs.find? (fun p => p.1 = k)).map (fun p => p.2)

/-- Serialization of a result map as a JSON object of strings. -/
def resultMapJson (m : ResultMap) : Json :=
  Json.obj (m.map (fun p => (p.1, Json.str p.2)))

/-- Serde serialization tree of a `LogRecord` (struct fields in declaration
order: `header_response` with its `actions_results`, then `data`). -/
def logRecordJson (actions_results : ResultMap) (raw_data : List Nat) : Json :=
  Json.obj
    [("header_response", Json.obj [("actions_results", resultMapJson actions_results)]),
     ("data", Json.str (utf8Lossy raw_data))]

/-- `JsonFormatter`: `serde_json::to_string` of the structured record; the
idle value is `serde_json::json!` of an object with field `type = "idle"`. -/
def jsonFormatter : LogFormatterM String where
  format := fun actions_results raw_data =>
    Json.render (logRecordJson actions_results raw_data)
  idleOutput := Json.render (Json.obj [("type", Json.str "idle")])

/-- `ScanContext` from `actions.rs`: the target address string, the port, and
the opaque tokio task identifier. -/
structure ScanContext where
  target_addr : String
  port : Nat
  task_id : Nat

/-- The `Action` trait: name, whether to read after connect, and the two
callbacks (`execute_after_successfull_connection` with and without read). -/
structure ActionModel where
  name : String
  set_read_from_successfull_connection : Bool
  execute_after_successfull_connection : ScanContext → ResultMap → ResultMap
  execute_after_successfull_connection_and_read :
    ScanContext → List Nat → ResultMap → ResultMap

/-- Decimal rendering of a `u16`, as Rust's `Display` produces it. -/
def natDecimal (n : Nat) : String := toString n

/-- `ActionIsPortOpen` from `actions.rs`: no read; on connect it inserts
`IsPortOpen = "open"`, the target string, and the decimal port. -/
def actionIsPortOpen : ActionModel where
  name := "IsPortOpen"
  set_read_from_successfull_connection := false
  execute_after_successfull_connection := fun ctx actions_results =>
    insertRM (insertRM (insertRM actions_results "IsPortOpen" "open")
        "target" ctx.target_addr)
      "port" (natDecimal ctx.port)
  execute_after_successfull_connection_and_read := fun _ _ actions_results =>
    actions_results

/-- Result of the per-task action loop (`mod.rs` lines 728-763): the final
result map, the final `raw_data` binding, how many `try_read` calls were
made, and (ghost instrumentation) the byte slices handed to the with-read
callbacks, in order. -/
structure ActionLoopResult where
  results : ResultMap
  rawData : List Nat
  readsPerformed : Nat
  rawPassed : List (List Nat)
deriving Repr

/-- The socket is modelled as the oracle of successive `try_read` outcomes:
element `i` is the byte slice the `i`-th read yields (`[]` stands for a
would-block or error outcome, where the code sets `len = 0`). -/
abbrev ReadOracle := List (List Nat)

/-- The action loop of the worker: for each action in order, if it wants a
read, a `try_read` is issued and `raw_data` is rebound to its bytes before
invoking the with-read callback; otherwise the plain callback runs. -/
def runActions (ctx : ScanContext) :
    List ActionModel → ReadOracle → ResultMap → List Nat → ActionLoopResult
  | [], _, m, raw => ⟨m, raw, 0, []⟩
  | a :: rest, reads, m, raw =>
    if a.set_read_from_successfull_connection then
      let bytes := reads.headD []
      let m2 := a.execute_after_successfull_connection_and_read ctx bytes m
      let r := runActions ctx rest reads.tail m2 bytes
      ⟨r.results, r.rawData, r.readsPerformed + 1, bytes :: r.rawPassed⟩
    else
      let m2 := a.execute_after_successfull_connection ctx m
      runActions ctx rest reads m2 raw

/-- First `n` outcomes of a read oracle, padding with `[]` (a read on an
exhausted socket yields zero bytes). -/
def takePad : Nat → ReadOracle → List (List Nat)
  | 0, _ => []
  | n + 1, xs => xs.headD [] :: takePad n xs.tail

/-- Outcome of the timeout-wrapped `TcpStream::connect`. -/
inductive ConnectResult where
  | success : ConnectResult
  | connError : String → ConnectResult
  | timedOut : String → ConnectResult

/-- Observable effects of one worker: the records sent on the broadcast
channel, whether the buffer went back to the pool, and how many actions ran. -/
structure WorkerResult (O : Type) where
  logsSent : List O
  bufferReturned : Bool
  actionsRun : Nat

/-- The worker body spawned per task (`mod.rs` lines 666-772): check the
cancellation token, connect under timeout, on failure emit one record built
from a fresh map (`closed` / `timeout`) with the error message as body, on
success run the action loop and emit one record from its results; the
broadcast happens only while the sender slot is present. -/
def workerRun {O : Type} (F : LogFormatterM O) (senderPresent : Bool)
    (cancelled : Bool) (conn : ConnectResult) (ctx : ScanContext)
    (actions : List ActionModel) (reads : ReadOracle) : WorkerResult O :=
  if cancelled then ⟨[], false, 0⟩
  else
    match conn with
    | .connError e =>
        let actions_results := insertRM [] actionIsPortOpen.name "closed"
        let msg := strBytes ("connection error: " ++ e)
        let log := F.format actions_results msg
        ⟨if senderPresent then [log] else [], true, 0⟩
    | .timedOut e =>
        let actions_results := insertRM [] actionIsPortOpen.name "timeout"
        let msg := strBytes ("connection timed out: " ++ e)
        let log := F.format actions_results msg
        ⟨if senderPresent then [log] else [], true, 0⟩
    | .success =>
        let r := runActions ctx actions reads [] []
        let log := F.format r.results r.rawData
        ⟨if senderPresent then [log] else [], true, actions.length⟩

/-- Size of the `usize` value space; the atomic counters are `AtomicUsize`. -/
def USIZE : Nat := 2 ^ 64

/-- `fetch_add(1)` result value (wrapping, as Rust atomics do). -/
def usizeAdd1 (n : Nat) : Nat := (n + 1) % USIZE

/-- `fetch_sub(1)` result value (wrapping, as Rust atomics do). -/
def usizeSub1 (n : Nat) : Nat := (n + (USIZE - 1)) % USIZE

/-- Atomic steps on the shared engine state, in the program order of the
source; `publish` is a send on the broadcast log channel. -/
inductive EngineEvent (O : Type) where
  | pendingInc : EngineEvent O
  | pendingDec : EngineEvent O
  | activeInc : EngineEvent O
  | activeDec : EngineEvent O
  | queuePush : Nat → EngineEvent O
  | queuePop : Nat → EngineEvent O
  | notifyWaiters : EngineEvent O
  | publish : O → EngineEvent O
deriving DecidableEq

/-- Shared counter and queue state (`pending_tasks`, `active_tasks`,
`task_pool`); tasks are identified by opaque numbers. -/
structure EngineState where
  pending : Nat
  active : Nat
  queue : List Nat
deriving DecidableEq, Repr

/-- Effect of one atomic step on the shared state. -/
def applyEvent {O : Type} (s : EngineState) : EngineEvent O → EngineState
  | .pendingInc => { s with pending := usizeAdd1 s.pending }
  | .pendingDec => { s with pending := usizeSub1 s.pending }
  | .activeInc => { s with active := usizeAdd1 s.active }
  | .activeDec => { s with active := usizeSub1 s.active }
  | .queuePush t => { s with queue := s.queue ++ [t] }
  | .queuePop _ => { s with queue := s.queue.tail }
  | .notifyWaiters => s
  | .publish _ => s

/-- Run a sequence of atomic steps. -/
def runEvents {O : Type} (s : EngineState) : List (EngineEvent O) → EngineState
  | [] => s
  | e :: rest => runEvents (applyEvent s e) rest

/-- Atomic steps of `add_task` in program order (`mod.rs` lines 609-615):
increment `pending_tasks`, push the task, notify the waiters. -/
def addTaskTrace {O : Type} (t : Nat) : List (EngineEvent O) :=
  [.pendingInc, .queuePush t, .notifyWaiters]

/-- State after `add_task`. -/
def add_task {O : Type} (s : EngineState) (t : Nat) : EngineState :=
  runEvents s (addTaskTrace (O := O) t)

/-- Atomic steps of one driver-loop iteration as far as the queue and the
counters are concerned (`mod.rs` lines 633-672): pop from the queue; if a
task was there, `active_tasks.fetch_add(1)` then `pending_tasks.fetch_sub(1)`;
an empty queue only yields. -/
def driverPopTrace {O : Type} (s : EngineState) : List (EngineEvent O) :=
  match s.queue with
  | [] => []
  | t :: _ => [.queuePop t, .activeInc, .pendingDec]

/-- State after one driver-loop iteration. -/
def driverPop {O : Type} (s : EngineState) : EngineState :=
  runEvents s (driverPopTrace (O := O) s)

/-- Atomic steps of `ActiveTasksGuard::drop` (`mod.rs` lines 577-585):
`active_tasks.fetch_sub(1)`; if the value it returned is 1 and
`pending_tasks` reads 0, `idle_notify.notify_waiters()`. Nothing else. -/
def activeTasksGuardDropTrace {O : Type} (s : EngineState) : List (EngineEvent O) :=
  .activeDec :: (if s.active == 1 && s.pending == 0 then [.notifyWaiters] else [])

/-- State after the guard's drop. -/
def activeTasksGuardDrop {O : Type} (s : EngineState) : EngineState :=
  runEvents s (activeTasksGuardDropTrace (O := O) s)

/-- Does the trace contain a broadcast send? -/
def containsPublish {O : Type} : List (EngineEvent O) → Bool
  | [] => false
  | .publish _ :: _ => true
  | _ :: rest => containsPublish rest

/-- Steps emitted by the body of `await_idle` once it observes
`pending == 0 && active == 0` (`mod.rs` lines 797-811): send the formatter's
`idle_output()` if the sender slot is present. -/
def awaitIdleEmit {O : Type} (F : LogFormatterM O) (senderPresent : Bool) :
    List (EngineEvent O) :=
  if senderPresent then [.publish F.idleOutput] else []

/-- A banner-grab style action used to exercise the read path: it declares
`wants_read` and records the lossy decoding of the bytes it receives under
its own name. -/
def bannerProbe (nm : String) : ActionModel where
  name := nm
  set_read_from_successfull_connection := true
  execute_after_successfull_connection := fun _ m => m
  execute_after_successfull_connection_and_read := fun _ raw m =>
    insertRM m nm (utf8Lossy raw)

/-- One item delivered by the underlying `BroadcastStream`: a value, or a
`Lagged` error for a subscriber that fell behind. -/
inductive RecvItem (O : Type) where
  | ok : O → RecvItem O
  | lagged : RecvItem O
deriving DecidableEq, Repr

/-- `TaskAwareStream::next` (`mod.rs` lines 475-483): loop over the inner
stream, return the first successful value, skip errors; when the inner
stream is exhausted (the channel is closed) return `none`. Returns the value
and the items still to be delivered. -/
def taskAwareNext {O : Type} : List (RecvItem O) → Option O × List (RecvItem O)
  | [] => (none, [])
  | .ok v :: rest => (some v, rest)
  | .lagged :: rest => taskAwareNext rest

/-- The broadcast sender slot and the cancellation token of the scanner
(`logger_tx : Arc<Mutex<Option<Sender>>>`, `cancellation_token`). -/
structure ScannerChannels where
  logger_tx : Option Nat
  cancelled : Bool
deriving DecidableEq, Repr

/-- `get_logs_stream` (`mod.rs` lines 789-795): map over the sender slot,
subscribing when it is present; the returned value stands for the
`TaskAwareStream` built from the subscription. -/
def get_logs_stream (s : ScannerChannels) : Option Nat :=
  s.logger_tx.map (fun tx => tx)

/-- `shutdown_graceful` (`mod.rs` lines 813-820) after its `await_idle`
returns: cancel the token, then `take()` the sender out of the slot and
drop it. -/
def shutdown_graceful (s : ScannerChannels) : ScannerChannels :=
  { s with logger_tx := none, cancelled := true }

/-! Helper lemmas about the result map. -/

theorem insertRM_cons (a : String × String) (m : ResultMap) (k v : String) :
    insertRM (a :: m) k v =
      if a.1 = k then insertRM m k v else a :: insertRM m k v := by
  by_cases h : a.1 = k <;> simp [insertRM, List.filter_cons, h]

theorem findRM_cons (a : String × String) (m : ResultMap) (k : String) :
    findRM (a :: m) k = if a.1 = k then some a.2 else findRM m k := by
  by_cases h : a.1 = k <;> simp [findRM, List.find?_cons, h]

theorem findRM_insertRM_self (m : ResultMap) (k v : String) :
    findRM (insertRM m k v) k = some v := by
  induction m with
  | nil => simp [insertRM, findRM]
  | cons a m ih =>
    rw [insertRM_cons]
    by_cases h : a.1 = k
    · rw [if_pos h]; exact ih
    · rw [if_neg h, findRM_cons, if_neg h]; exact ih

theorem findRM_insertRM_ne (m : ResultMap) (k v k' : String) (h : k' ≠ k) :
    findRM (insertRM m k v) k' = findRM m k' := by
  induction m with
  | nil => simp [insertRM, findRM, Ne.symm h]
  | cons a m ih =>
    rw [insertRM_cons]
    by_cases hk : a.1 = k
    · have hne : a.1 ≠ k' := by rw [hk]; exact Ne.symm h
      rw [if_pos hk, findRM_cons, if_neg hne]; exact ih
    · rw [if_neg hk, findRM_cons, findRM_cons]
      by_cases hk' : a.1 = k' <;> simp [hk', ih]

/-! Claim theorems. -/

/-- C4: for every formatter and every value of its output type, the idle test
`is_idle_signal` returns true exactly when the value equals `idle_output()`. -/
theorem is_idle_signal_iff_eq_idle_output {O : Type} [DecidableEq O]
    (F : LogFormatterM O) (o : O) :
    is_idle_signal F o = true ↔ o = F.idleOutput := by
  simp [is_idle_signal]

/-- C7: `ActionIsPortOpen` declares no read, and its connected callback
inserts exactly `IsPortOpen = "open"`, the target string of the context and
the decimal port, leaving every other key of the result map untouched. -/
theorem action_is_port_open_contract :
    actionIsPortOpen.set_read_from_successfull_connection = false ∧
    ∀ (ctx : ScanContext) (m : ResultMap),
      findRM (actionIsPortOpen.execute_after_successfull_connection ctx m)
          "IsPortOpen" = some "open" ∧
      findRM (actionIsPortOpen.execute_after_successfull_connection ctx m)
          "target" = some ctx.target_addr ∧
      findRM (actionIsPortOpen.execute_after_successfull_connection ctx m)
          "port" = some (natDecimal ctx.port) ∧
      ∀ k : String, k ≠ "IsPortOpen" → k ≠ "target" → k ≠ "port" →
        findRM (actionIsPortOpen.execute_after_successfull_connection ctx m) k
          = findRM m k := by
  refine ⟨rfl, fun ctx m => ⟨?_, ?_, ?_, ?_⟩⟩
  · show findRM (insertRM (insertRM (insertRM m "IsPortOpen" "open")
        "target" ctx.target_addr) "port" (natDecimal ctx.port)) "IsPortOpen" = _
    rw [findRM_insertRM_ne _ _ _ _ (by decide), findRM_insertRM_ne _ _ _ _ (by decide),
      findRM_insertRM_self]
  · show findRM (insertRM (insertRM (insertRM m "IsPortOpen" "open")
        "target" ctx.target_addr) "port" (natDecimal ctx.port)) "target" = _
    rw [findRM_insertRM_ne _ _ _ _ (by decide), findRM_insertRM_self]
  · exact findRM_insertRM_self ..
  · intro k h1 h2 h3
    show findRM (insertRM (insertRM (insertRM m "IsPortOpen" "open")
        "target" ctx.target_addr) "port" (natDecimal ctx.port)) k = _
    rw [findRM_insertRM_ne _ _ _ _ h3, findRM_insertRM_ne _ _ _ _ h2,
      findRM_insertRM_ne _ _ _ _ h1]

/-- C7 witness: the contract applied to a concrete context, map and key. -/
theorem action_is_port_open_contract_witness :
    findRM (actionIsPortOpen.execute_after_successfull_connection
        ⟨"127.0.0.1", 80, 0⟩ [("x", "y")]) "IsPortOpen" = some "open" ∧
    findRM (actionIsPortOpen.execute_after_successfull_connection
        ⟨"127.0.0.1", 80, 0⟩ [("x", "y")]) "x" = some "y" := by
  have h := action_is_port_open_contract.2 ⟨"127.0.0.1", 80, 0⟩ [("x", "y")]
  exact ⟨h.1, h.2.2.2 "x" (by decide) (by decide) (by decide)⟩

/-- C9: the built-in formatters can produce their idle sentinel on the normal
path: the structured formatter on an empty map and the bytes of `"idle"`, and
the raw formatter on the bytes of `"___IDLE___"` under any result map; such a
record is then classified as idle. -/
theorem idle_sentinel_reachable_by_format :
    structuredFormatter.format [] (strBytes "idle") = structuredFormatter.idleOutput ∧
    (∀ m : ResultMap,
      rawFormatter.format m (strBytes "___IDLE___") = rawFormatter.idleOutput) ∧
    is_idle_signal structuredFormatter
      (structuredFormatter.format [] (strBytes "idle")) = true := by
  refine ⟨by decide, fun m => rfl, by decide⟩

/-- C10: `get_logs_stream` yields a stream exactly when the broadcast sender
slot is present, and after `shutdown_graceful` (which takes the sender out of
the slot) it yields `none`. -/
theorem logs_stream_presence :
    (∀ s : ScannerChannels, (get_logs_stream s).isSome = s.logger_tx.isSome) ∧
    (∀ s : ScannerChannels, get_logs_stream (shutdown_graceful s) = none) := by
  constructor
  · intro s; cases h : s.logger_tx <;> simp [get_logs_stream, h]
  · intro s; rfl

/-- C5: when the TCP connect fails (error or timeout), the worker broadcasts
exactly one record, built from a fresh map with `IsPortOpen` set to `closed`
or `timeout` and the matching message body, returns its buffer to the pool,
and runs no action. -/
theorem connect_failure_single_record {O : Type} (F : LogFormatterM O)
    (e : String) (ctx : ScanContext) (actions : List ActionModel)
    (reads : ReadOracle) :
    (workerRun F true false (.connError e) ctx actions reads).logsSent =
      [F.format (insertRM [] "IsPortOpen" "closed")
        (strBytes ("connection error: " ++ e))] ∧
    (workerRun F true false (.connError e) ctx actions reads).bufferReturned
      = true ∧
    (workerRun F true false (.connError e) ctx actions reads).actionsRun = 0 ∧
    (workerRun F true false (.timedOut e) ctx actions reads).logsSent =
      [F.format (insertRM [] "IsPortOpen" "timeout")
        (strBytes ("connection timed out: " ++ e))] ∧
    (workerRun F true false (.timedOut e) ctx actions reads).bufferReturned
      = true ∧
    (workerRun F true false (.timedOut e) ctx actions reads).actionsRun = 0 :=
  ⟨rfl, rfl, rfl, rfl, rfl, rfl⟩

/-- C6: the JSON formatter's output is the rendering of a JSON object whose
`header_response.actions_results` is the result map and whose `data` is the
lossy UTF-8 decoding of the bytes; its idle value is exactly
`\x7b"type":"idle"\x7d`. -/
theorem json_format_structure :
    (∀ (m : ResultMap) (b : List Nat), ∃ j : Json,
      jsonFormatter.format m b = Json.render j ∧
      (j.getField "header_response").bind (fun hr => hr.getField "actions_results")
        = some (resultMapJson m) ∧
      j.getField "data" = some (Json.str (utf8Lossy b))) ∧
    jsonFormatter.idleOutput = "\x7b\"type\":\"idle\"\x7d" := by
  constructor
  · intro m b
    exact ⟨logRecordJson m b, rfl, rfl, rfl⟩
  · show Json.render (Json.obj [("type", Json.str "idle")]) = _
    rw [Json.render, Json.renderFields, Json.render]
    have h1 : jsonEscape "type" = "type" := by decide
    have h2 : jsonEscape "idle" = "idle" := by decide
    rw [h1, h2]; rfl

/-- C8: `next` yields the first successfully received record after silently
skipping any run of lagged errors, and yields `none` once the closed channel
has nothing left but lagged errors. -/
theorem task_aware_next_contract {O : Type} (pre rest : List (RecvItem O)) (v : O)
    (hpre : ∀ x ∈ pre, x = RecvItem.lagged) :
    taskAwareNext (pre ++ RecvItem.ok v :: rest) = (some v, rest) ∧
    taskAwareNext (O := O) pre = (none, []) := by
  induction pre with
  | nil => exact ⟨rfl, rfl⟩
  | cons x pre ih =>
    have hx : x = RecvItem.lagged := hpre x (List.mem_cons_self x pre)
    have hrest : ∀ y ∈ pre, y = RecvItem.lagged := fun y hy =>
      hpre y (List.mem_cons_of_mem x hy)
    subst hx
    simpa [taskAwareNext] using ih hrest

/-- C8 witness: two lagged deliveries are skipped before a value, and a
lagged-only tail ends in `none`. -/
theorem task_aware_next_contract_witness :
    taskAwareNext ([RecvItem.lagged, RecvItem.lagged] ++
        RecvItem.ok 42 :: [RecvItem.ok 7]) = (some 42, [RecvItem.ok 7]) ∧
    taskAwareNext (O := Nat) [RecvItem.lagged, RecvItem.lagged] = (none, []) :=
  task_aware_next_contract [RecvItem.lagged, RecvItem.lagged] [RecvItem.ok 7] 42
    (by decide)

/-- C1 counterexample: a task with two read-requesting banner actions causes
two `try_read` calls, and the two actions observe different bytes (`"A"` and
`"B"`), so neither is a single per-task read performed nor is any shared
slice handed to both. -/
theorem per_task_single_read_counterexample :
    (runActions ⟨"127.0.0.1", 80, 0⟩ [bannerProbe "a1", bannerProbe "a2"]
        [[65], [66]] [] []).readsPerformed = 2 ∧
    findRM (runActions ⟨"127.0.0.1", 80, 0⟩ [bannerProbe "a1", bannerProbe "a2"]
        [[65], [66]] [] []).results "a1" = some "A" ∧
    findRM (runActions ⟨"127.0.0.1", 80, 0⟩ [bannerProbe "a1", bannerProbe "a2"]
        [[65], [66]] [] []).results "a2" = some "B" := by
  decide

/-- C1 amended: the worker issues one non-blocking read per action that wants
one — the read count equals the number of such actions — and the bytes handed
to the with-read callbacks are the successive outcomes of those reads, not a
single shared slice. -/
theorem reads_follow_wants_read_actions (ctx : ScanContext)
    (actions : List ActionModel) (reads : ReadOracle) (m : ResultMap)
    (raw : List Nat) :
    (runActions ctx actions reads m raw).readsPerformed =
      actions.countP (fun a => a.set_read_from_successfull_connection) ∧
    (runActions ctx actions reads m raw).rawPassed =
      takePad (actions.countP (fun a => a.set_read_from_successfull_connection))
        reads := by
  induction actions generalizing reads m raw with
  | nil => exact ⟨rfl, rfl⟩
  | cons a rest ih =>
    by_cases h : a.set_read_from_successfull_connection
    · have hr := ih reads.tail
        (a.execute_after_successfull_connection_and_read ctx (reads.headD []) m)
        (reads.headD [])
      rw [List.headD_eq_head?] at hr
      simp [runActions, h, List.countP_cons, takePad, hr.1, hr.2]
    · have hr := ih reads (a.execute_after_successfull_connection ctx m) raw
      simp [runActions, h, List.countP_cons, hr.1, hr.2]

/-- C2 counterexample: dropping the guard at `active = 1`, `pending = 0`
(post-decrement `active` is zero) emits only the waiter notification; no idle
sentinel is published on the log channel by the guard. -/
theorem guard_drop_no_publish_counterexample :
    usizeSub1 (EngineState.mk 0 1 []).active = 0 ∧
    (EngineState.mk 0 1 []).pending = 0 ∧
    activeTasksGuardDropTrace (O := LogRecord) (EngineState.mk 0 1 [])
      = [.activeDec, .notifyWaiters] ∧
    containsPublish
      (activeTasksGuardDropTrace (O := LogRecord) (EngineState.mk 0 1 []))
      = false := by
  refine ⟨by decide, rfl, rfl, rfl⟩

/-- State equation of `add_task`: the pending counter goes up by one and the
task lands at the tail of the queue. -/
theorem add_task_eq {O : Type} (s : EngineState) (t : Nat) :
    add_task (O := O) s t =
      { s with pending := usizeAdd1 s.pending, queue := s.queue ++ [t] } := rfl

/-- Trace equation of a driver-loop iteration that finds a task. -/
theorem driverPopTrace_cons {O : Type} (s : EngineState) (u : Nat)
    (rest : List Nat) (hq : s.queue = u :: rest) :
    driverPopTrace (O := O) s = [.queuePop u, .activeInc, .pendingDec] := by
  unfold driverPopTrace; rw [hq]

/-- State equation of a driver-loop iteration that finds a task. -/
theorem driverPop_cons {O : Type} (s : EngineState) (u : Nat)
    (rest : List Nat) (hq : s.queue = u :: rest) :
    driverPop (O := O) s =
      { s with
        pending := usizeSub1 s.pending
        active := usizeAdd1 s.active
        queue := rest } := by
  unfold driverPop
  rw [driverPopTrace_cons (O := O) s u rest hq]
  show EngineState.mk (usizeSub1 s.pending) (usizeAdd1 s.active) s.queue.tail = _
  rw [hq]; rfl

/-- State equation of the guard's drop: both branches only change `active`. -/
theorem activeTasksGuardDrop_eq {O : Type} (s : EngineState) :
    activeTasksGuardDrop (O := O) s = { s with active := usizeSub1 s.active } := by
  unfold activeTasksGuardDrop activeTasksGuardDropTrace
  by_cases hc : (s.active == 1 && s.pending == 0) = true
  · rw [hc]; rfl
  · rw [Bool.not_eq_true] at hc; rw [hc]; rfl

/-- Trace equation of the guard's drop when its branch condition holds. -/
theorem activeTasksGuardDropTrace_pos {O : Type} (s : EngineState)
    (hc : (s.active == 1 && s.pending == 0) = true) :
    activeTasksGuardDropTrace (O := O) s = [.activeDec, .notifyWaiters] := by
  unfold activeTasksGuardDropTrace; rw [hc]; rfl

/-- Trace equation of the guard's drop when its branch condition fails. -/
theorem activeTasksGuardDropTrace_neg {O : Type} (s : EngineState)
    (hc : ¬(s.active == 1 && s.pending == 0) = true) :
    activeTasksGuardDropTrace (O := O) s = [.activeDec] := by
  unfold activeTasksGuardDropTrace; rw [Bool.not_eq_true] at hc; rw [hc]; rfl

/-- C2 amended: every drop of the guard decrements `active` by one and keeps
`pending`; it wakes the idle waiters exactly when the post-decrement `active`
is zero and `pending` is zero, and it publishes nothing on the log channel
(the idle sentinel is sent by `await_idle` instead). -/
theorem guard_drop_decrement_and_notify (s : EngineState)
    (h1 : 0 < s.active) (h2 : s.active < USIZE) :
    (activeTasksGuardDrop (O := LogRecord) s).active = s.active - 1 ∧
    (activeTasksGuardDrop (O := LogRecord) s).pending = s.pending ∧
    (EngineEvent.notifyWaiters ∈ activeTasksGuardDropTrace (O := LogRecord) s ↔
      s.active - 1 = 0 ∧ s.pending = 0) ∧
    containsPublish (activeTasksGuardDropTrace (O := LogRecord) s) = false ∧
    awaitIdleEmit structuredFormatter true
      = [EngineEvent.publish structuredFormatter.idleOutput] := by
  have hU : USIZE = 18446744073709551616 := by norm_num [USIZE]
  have hsub : usizeSub1 s.active = s.active - 1 := by
    rw [usizeSub1, hU]; rw [hU] at h2; omega
  by_cases hc : (s.active == 1 && s.pending == 0) = true
  · have hc' : s.active = 1 ∧ s.pending = 0 := by simpa using hc
    have htr := activeTasksGuardDropTrace_pos (O := LogRecord) s hc
    refine ⟨?_, ?_, ?_, ?_, rfl⟩
    · rw [activeTasksGuardDrop_eq]; exact hsub
    · rw [activeTasksGuardDrop_eq]
    · rw [htr]
      constructor
      · intro _; exact ⟨by omega, hc'.2⟩
      · intro _; simp
    · rw [htr]; rfl
  · have htr := activeTasksGuardDropTrace_neg (O := LogRecord) s hc
    refine ⟨?_, ?_, ?_, ?_, rfl⟩
    · rw [activeTasksGuardDrop_eq]; exact hsub
    · rw [activeTasksGuardDrop_eq]
    · rw [htr]
      constructor
      · intro hm; simp at hm
      · intro hm
        have ha1 : s.active = 1 := by omega
        exact absurd (by simp [ha1, hm.2]) hc
    · rw [htr]; rfl

/-- C2 amended witness: the guard dropped at `active = 2`, `pending = 5`
leaves `active = 1` and does not notify. -/
theorem guard_drop_decrement_and_notify_witness :
    (0 < (EngineState.mk 5 2 []).active ∧ (EngineState.mk 5 2 []).active < USIZE) ∧
    (activeTasksGuardDrop (O := LogRecord) (EngineState.mk 5 2 [])).active = 1 := by
  refine ⟨⟨by decide, by decide⟩, ?_⟩
  exact (guard_drop_decrement_and_notify (EngineState.mk 5 2 []) (by decide)
    (by decide)).1

/-- C3: for every engine state — idle ones included — `add_task` increments
`pending` by one before pushing the task; a driver pop removes the head task,
incrementing `active` before decrementing `pending`; and a guard drop
decrements `active` by exactly one (its trace holds exactly one decrement in
both branches). The only hypotheses are the `usize` ranges of the wrapping
atomics, plus `0 < pending` for the pop's decrement, which holds whenever the
queue is nonempty. -/
theorem counter_lifecycle (s : EngineState) (t : Nat) :
    ((s.pending + 1 < USIZE →
        (add_task (O := LogRecord) s t).pending = s.pending + 1) ∧
     (add_task (O := LogRecord) s t).queue = s.queue ++ [t] ∧
     addTaskTrace (O := LogRecord) t
       = [.pendingInc, .queuePush t, .notifyWaiters]) ∧
    (∀ u : Nat, ∀ rest : List Nat, s.queue = u :: rest →
      (s.active + 1 < USIZE →
        (driverPop (O := LogRecord) s).active = s.active + 1) ∧
      (0 < s.pending → s.pending < USIZE →
        (driverPop (O := LogRecord) s).pending = s.pending - 1) ∧
      (driverPop (O := LogRecord) s).queue = rest ∧
      driverPopTrace (O := LogRecord) s
        = [.queuePop u, .activeInc, .pendingDec]) ∧
    ((0 < s.active → s.active < USIZE →
        (activeTasksGuardDrop (O := LogRecord) s).active = s.active - 1) ∧
     (activeTasksGuardDropTrace (O := LogRecord) s).countP
        (fun e => e == EngineEvent.activeDec) = 1) := by
  have hU : USIZE = 18446744073709551616 := by norm_num [USIZE]
  refine ⟨⟨?_, ?_, rfl⟩, ?_, ?_, ?_⟩
  · intro hp
    rw [add_task_eq]
    show usizeAdd1 s.pending = s.pending + 1
    rw [usizeAdd1, hU]; rw [hU] at hp; omega
  · rw [add_task_eq]
  · intro u rest hq
    refine ⟨?_, ?_, ?_, driverPopTrace_cons (O := LogRecord) s u rest hq⟩
    · intro ha
      rw [driverPop_cons (O := LogRecord) s u rest hq]
      show usizeAdd1 s.active = s.active + 1
      rw [usizeAdd1, hU]; rw [hU] at ha; omega
    · intro hpos hp
      rw [driverPop_cons (O := LogRecord) s u rest hq]
      show usizeSub1 s.pending = s.pending - 1
      rw [usizeSub1, hU]; rw [hU] at hp; omega
    · rw [driverPop_cons (O := LogRecord) s u rest hq]
  · intro hpos ha
    rw [activeTasksGuardDrop_eq]
    show usizeSub1 s.active = s.active - 1
    rw [usizeSub1, hU]; rw [hU] at ha; omega
  · by_cases hc : (s.active == 1 && s.pending == 0) = true
    · rw [activeTasksGuardDropTrace_pos (O := LogRecord) s hc]; rfl
    · rw [activeTasksGuardDropTrace_neg (O := LogRecord) s hc]; rfl

/-- C3 witness: the lifecycle applied at the cases an engine actually passes
through — `add_task` on the idle engine `(pending = 0, active = 0)`, the
first driver pop at `active = 0`, and the final guard drop at `pending = 0`,
whose notify branch is taken and whose trace still holds one decrement. -/
theorem counter_lifecycle_witness :
    ((add_task (O := LogRecord) (EngineState.mk 0 0 []) 5).pending = 1 ∧
      (add_task (O := LogRecord) (EngineState.mk 0 0 []) 5).queue = [5]) ∧
    ((driverPop (O := LogRecord) (EngineState.mk 1 0 [5])).active = 1 ∧
      (driverPop (O := LogRecord) (EngineState.mk 1 0 [5])).pending = 0) ∧
    ((activeTasksGuardDrop (O := LogRecord) (EngineState.mk 0 1 [])).active = 0 ∧
      (activeTasksGuardDropTrace (O := LogRecord) (EngineState.mk 0 1 [])).countP
        (fun e => e == EngineEvent.activeDec) = 1) := by
  have h1 := counter_lifecycle (EngineState.mk 0 0 []) 5
  have h2 := counter_lifecycle (EngineState.mk 1 0 [5]) 5
  have h3 := counter_lifecycle (EngineState.mk 0 1 []) 5
  refine ⟨⟨h1.1.1 (by decide), h1.1.2.1⟩, ⟨?_, ?_⟩,
    h3.2.2.1 (by decide) (by decide), h3.2.2.2⟩
  · exact (h2.2.1 5 [] rfl).1 (by decide)
  · exact (h2.2.1 5 [] rfl).2.1 (by decide) (by decide)

end Stalkermap
